import Mathlib

/-!
# Verification of the `wallet-core` C binding surface

Shallow embedding of `src/bindings/wallet-core/src/c.rs` (the C-compatible
entry points of the wallet engine) together with the parts of the wallet core
that the binding delegates to.  Raw pointers are modelled as `Option`
(`none` = null pointer); out-parameters are modelled as extra components of
the return value (`none` = nothing was written); a Rust panic
(`todo!()`) is modelled as the `panics` outcome.

Definitions whose Rust source is not part of the repository snapshot (the
`Wallet`, `Conversion` and `Error` internals of the `wallet-core` crate, and
the `chain_impl_mockchain` vote types) are modelled from the specification;
each such definition says so in its doc comment.
-/

set_option autoImplicit false

namespace WalletCore

/-- Modelled from the spec: the cause attached to a structured error
("kind + underlying cause").  `nulPtr` and `outOfBound` embed the `NulPtr`
and `OutOfBound` structs of `c.rs`; the remaining constructors stand for the
error values produced by the missing core / protocol crates. -/
inductive Cause where
  | nulPtr
  | outOfBound
  | invalidMnemonic
  | invalidPayloadType
  | invalidVotePlanId
  | invalidChoiceCount
  | choiceOutOfRange
  deriving DecidableEq, Repr

/-- Modelled from the spec: the error kinds of the `wallet-core` `Error`
type, named after the constructor functions visible in `c.rs`
(`Error::invalid_input(arg)`, `Error::wallet_conversion()`) and the spec's
recovery failure. -/
inductive ErrorKind where
  | invalidInput (arg : String)
  | walletRecovering
  | walletConversion
  deriving DecidableEq, Repr

/-- Modelled from the spec: a structured error is a kind together with an
optional underlying cause (`Error::...().with(cause)` in `c.rs`). -/
structure Error where
  kind : ErrorKind
  cause : Option Cause
  deriving DecidableEq, Repr

/-- The C-facing result of `wallet-core`: success, or a structured error. -/
inductive CResult where
  | success
  | error (e : Error)
  deriving DecidableEq, Repr

/-- Observable outcome of running one of the C entry points: a returned value,
or a Rust panic (as raised by `todo!()`). -/
inductive Outcome (α : Type) where
  | ok (val : α)
  | panics (msg : String)
  deriving DecidableEq, Repr

/-- A byte buffer (each element is intended to be `< 256`). -/
abbrev Bytes := List Nat

/-- Modelled from the spec: the wallet's mutable view of its on-chain
account, `{ value : u64, counter : u32 }`. -/
structure AccountState where
  value : Nat
  counter : Nat
  deriving DecidableEq, Repr

/-- Modelled from the spec: the collection of key material recovered from a
mnemonic; the concrete derivation is outside the spec's scope, so the key
set is represented by the deterministic seed bytes it was derived from. -/
structure KeySet where
  seed : List Nat
  deriving DecidableEq, Repr

/-- Modelled from the spec: a discovered legacy fund entry (a reference to a
prior output together with its value); only the value takes part in the
dust/fee decision. -/
structure UtxoEntry where
  value : Nat
  deriving DecidableEq, Repr

/-- The `Input` of a conversion's `ignored` list; `c.rs` only reads its
`value()`. -/
structure Input where
  value : Nat
  deriving DecidableEq, Repr

/-- Modelled from the spec: immutable blockchain parameters — network
discrimination tag, linear fee formula parameters, block-zero hash. -/
structure Settings where
  discrimination : Nat
  feeConstant : Nat
  feeCoefficient : Nat
  block0Hash : Bytes
  deriving DecidableEq, Repr

/-- Modelled from the spec: the wallet orchestrator owns the recovered key
set, the account state and the discovered legacy funds. -/
structure Wallet where
  keys : KeySet
  state : AccountState
  funds : List UtxoEntry
  deriving DecidableEq, Repr

/-- The conversion result: an ordered sequence of signed-transaction byte
buffers plus the ignored (dust) inputs — the two fields `c.rs` reads. -/
structure Conversion where
  transactions : List Bytes
  ignored : List Input
  deriving DecidableEq, Repr

/-- `VOTE_PLAN_ID_LENGTH` from `wallet-core`: a vote plan id is 32 bytes. -/
def VOTE_PLAN_ID_LENGTH : Nat := 32

/-- A vote plan identifier: 32 bytes once validated. -/
structure VotePlanId where
  bytes : Bytes
  deriving DecidableEq, Repr

/-- Modelled from the spec: `VotePlanId::try_from` accepts exactly
`VOTE_PLAN_ID_LENGTH` bytes. -/
def VotePlanId.tryFrom (l : Bytes) : Except Cause VotePlanId :=
  if l.length = VOTE_PLAN_ID_LENGTH then .ok ⟨l⟩ else .error .invalidVotePlanId

/-- Modelled from the spec: the payload type of a vote plan, an enumerated
`{public, private}` value. -/
inductive PayloadType where
  | pub
  | priv
  deriving DecidableEq, Repr

/-- Modelled from the spec: decoding of the one-byte payload-type enum
(`payload_type.try_into()` in `c.rs`); the protocol assigns 1 to public and
2 to private, every other byte is invalid. -/
def payloadTypeOfByte (b : Nat) : Except Cause PayloadType :=
  if b = 1 then .ok .pub
  else if b = 2 then .ok .priv
  else .error .invalidPayloadType

/-- A vote plan: a 32-byte id and a payload type. -/
structure VotePlan where
  id : VotePlanId
  payload : PayloadType
  deriving DecidableEq, Repr

/-- `VotePlan::new`. -/
def VotePlan.new (id : VotePlanId) (payload : PayloadType) : VotePlan :=
  ⟨id, payload⟩

/-- The options of a proposal: choices are valid exactly in
`[0, numChoices)`. -/
structure VoteOptions where
  numChoices : Nat
  deriving DecidableEq, Repr

/-- Modelled from the spec: the protocol's maximum option count for a
proposal ("`num_choices` ... exceeds the protocol's maximum option count"). -/
def maxOptions : Nat := 16

/-- Modelled from the spec: `VoteOptions::new_length` fails if `num_choices`
is zero or exceeds the protocol maximum, and otherwise yields the option
range `[0, num_choices)`. -/
def VoteOptions.new_length (num_choices : Nat) : Except Cause VoteOptions :=
  if num_choices = 0 ∨ maxOptions < num_choices then .error .invalidChoiceCount
  else .ok ⟨num_choices⟩

/-- A proposal: its index within the vote plan and its option range. -/
structure Proposal where
  index : Nat
  options : VoteOptions
  deriving DecidableEq, Repr

/-- `Proposal::new`. -/
def Proposal.new (index : Nat) (options : VoteOptions) : Proposal :=
  ⟨index, options⟩

/-- A choice is valid for a proposal exactly when it lies in
`[0, numChoices)`. -/
def Proposal.validChoice (p : Proposal) (c : Nat) : Bool :=
  c < p.options.numChoices

/-- Modelled from the spec: the word counts accepted by mnemonic length
validation (the standard recovery-phrase sizes). -/
def validMnemonicLengths : List Nat := [12, 15, 18, 21, 24]

/-- Modelled from the spec: `Wallet::recover` validates the mnemonic's
length (the checksum algorithm and wordlist are outside the spec's scope and
are abstracted into the length check), derives a deterministic key set from
the words and the passphrase bytes, and starts with an empty account state
and no discovered funds.  Fails with an invalid-mnemonic error when
validation fails. -/
def Wallet.recover (mnemonics : String) (password : List Nat) : Except Error Wallet :=
  let ws := (mnemonics.splitOn " ").filter (fun w => w ≠ "")
  if validMnemonicLengths.contains ws.length then
    .ok { keys := ⟨ws.map String.length ++ password⟩
          state := ⟨0, 0⟩
          funds := [] }
  else
    .error ⟨.walletRecovering, some .invalidMnemonic⟩

/-- Modelled from the spec: the wallet's 32-byte identifier, derived
deterministically from the key set. -/
def Wallet.id (w : Wallet) : Bytes :=
  (w.keys.seed ++ List.replicate 32 0).take 32

/-- Modelled from the spec: `total_value()` returns the current account
value without side effects. -/
def Wallet.total_value (w : Wallet) : Nat :=
  w.state.value

/-- Modelled from the spec: `set_state(value, counter)` unconditionally
overwrites the account state; no monotonicity validation, no history. -/
def Wallet.set_state (w : Wallet) (value : Nat) (counter : Nat) : Wallet :=
  { w with state := ⟨value, counter⟩ }

/-- Modelled from the spec: the marginal fee cost of adding one more input
to a transaction under the linear fee formula. -/
def dustThreshold (s : Settings) : Nat :=
  s.feeCoefficient

/-- Modelled from the spec: the protocol bound on inputs per conversion
transaction ("batches sized so each resulting transaction stays within
protocol size/fee limits"). -/
def maxInputsPerTx : Nat := 255

/-- Split a list into consecutive chunks of at most `n` elements (fuel-driven
so the equations are structural). -/
def chunksAux {α : Type} (n : Nat) : Nat → List α → List (List α)
  | 0, _ => []
  | _, [] => []
  | fuel + 1, x :: xs => (x :: xs).take n :: chunksAux n fuel ((x :: xs).drop n)

/-- Split a list into consecutive chunks of at most `n` elements. -/
def chunks {α : Type} (n : Nat) (l : List α) : List (List α) :=
  chunksAux n l.length l

/-- Modelled from the spec: the opaque signed bytes of one conversion
transaction, a deterministic function of the settings, the wallet's keys and
the batch of spent inputs. -/
def conversionTxBytes (s : Settings) (w : Wallet) (batch : List UtxoEntry) : Bytes :=
  s.discrimination :: w.id ++ batch.map (fun u => u.value % 256)

/-- Modelled from the spec: `convert` greedily classifies each discovered
entry in a single pass — an entry whose value is less than or equal to the
marginal per-input fee cost is dust and goes to `ignored`, every other entry
is batched into a conversion transaction.  Zero discovered funds yield an
empty conversion, not an error. -/
def Wallet.convert (w : Wallet) (s : Settings) : Conversion :=
  let spendable := w.funds.filter (fun u => dustThreshold s < u.value)
  let dust := w.funds.filter (fun u => u.value ≤ dustThreshold s)
  { transactions := (chunks maxInputsPerTx spendable).map (conversionTxBytes s w)
    ignored := dust.map (fun u => ⟨u.value⟩) }

/-- Big-endian bytes of the 32-bit account counter. -/
def encodeCounter (c : Nat) : Bytes :=
  [c / 2 ^ 24 % 256, c / 2 ^ 16 % 256, c / 2 ^ 8 % 256, c % 256]

/-- Modelled from the spec: the opaque signed-transaction bytes of a vote
cast — they deterministically encode the vote plan id, the proposal index
and the choice, followed by the counter and a key-dependent signature
component. -/
def voteCastBytes (s : Settings) (vp : VotePlan) (p : Proposal) (c : Nat) (w : Wallet) : Bytes :=
  vp.id.bytes ++ p.index :: c :: (s.discrimination :: encodeCounter w.state.counter ++ w.id)

/-- Recover the vote plan id bytes, proposal index and choice from vote-cast
transaction bytes. -/
def decodeVoteCast (bytes : Bytes) : Option (Bytes × Nat × Nat) :=
  match bytes.drop 32 with
  | i :: c :: _ => some (bytes.take 32, i, c)
  | _ => none

/-- Modelled from the spec: `cast_vote` validates that the choice lies within
the proposal's options (failing with a choice-out-of-range error otherwise),
builds the signed vote transaction from the current state, and never mutates
the account state — the wallet comes back unchanged on success and on
failure. -/
def Wallet.vote (w : Wallet) (s : Settings) (vp : VotePlan) (p : Proposal) (c : Nat) :
    Except Error Bytes × Wallet :=
  if p.validChoice c then
    (.ok (voteCastBytes s vp p c w), w)
  else
    (.error ⟨.invalidInput "choice", some .choiceOutOfRange⟩, w)

/-! ## The C entry points of `c.rs`

Each function mirrors the Rust source line by line: null-pointer checks in
source order produce `invalid_input(arg).with(NulPtr)` errors, out-pointer
writes become extra return components, and `todo!()` becomes `panics`. -/

/-- `wallet_recover` (`c.rs` 61–86): check `wallet_out`; if the password
pointer is non-null and `password_length > 0` the source executes `todo!()`
(a panic); otherwise recover with an empty passphrase and write the wallet
out.  Returns the C result together with the wallet written to
`*wallet_out`. -/
def wallet_recover (mnemonics : String) (password : Option (List Nat))
    (password_length : Nat) (wallet_out_nonnull : Bool) :
    Outcome (CResult × Option Wallet) :=
  if ¬wallet_out_nonnull then
    .ok (.error ⟨.invalidInput "wallet_out", some .nulPtr⟩, none)
  else if password.isSome ∧ password_length > 0 then
    .panics "not yet implemented"
  else
    match Wallet.recover mnemonics [] with
    | .ok w => .ok (.success, some w)
    | .error e => .ok (.error e, none)

/-- `wallet_id` (`c.rs` 112–129): null checks on `wallet` and `id_out`, then
the 32-byte identifier is written out. -/
def wallet_id (wallet : Option Wallet) (id_out_nonnull : Bool) :
    CResult × Option Bytes :=
  match wallet with
  | none => (.error ⟨.invalidInput "wallet", some .nulPtr⟩, none)
  | some w =>
    if ¬id_out_nonnull then (.error ⟨.invalidInput "id_out", some .nulPtr⟩, none)
    else (.success, some w.id)

/-- `wallet_convert` (`c.rs` 205–231): null checks on `wallet`, `settings`
and `conversion_out` in source order; then `wallet.convert(settings)` is
infallible and the conversion is written out with success. -/
def wallet_convert (wallet : Option Wallet) (settings : Option Settings)
    (conversion_out_nonnull : Bool) : CResult × Option Conversion :=
  match wallet with
  | none => (.error ⟨.invalidInput "wallet", some .nulPtr⟩, none)
  | some w =>
    match settings with
    | none => (.error ⟨.invalidInput "settings", some .nulPtr⟩, none)
    | some s =>
      if ¬conversion_out_nonnull then
        (.error ⟨.invalidInput "conversion_out", some .nulPtr⟩, none)
      else
        (.success, some (w.convert s))

/-- `wallet_convert_transactions_size` (`c.rs` 241–246):
`conversion.as_ref().map(|c| c.transactions.len()).unwrap_or_default()` —
a null conversion yields the default `0`. -/
def wallet_convert_transactions_size (conversion : Option Conversion) : Nat :=
  (conversion.map (fun c => c.transactions.length)).getD 0

/-- `wallet_convert_transactions_get` (`c.rs` 261–290): null checks on
`conversion`, `transaction_out`, `transaction_size`; then
`conversion.transactions.get(index)` either writes the transaction bytes and
length out, or fails with `Error::wallet_conversion().with(OutOfBound)`. -/
def wallet_convert_transactions_get (conversion : Option Conversion) (index : Nat)
    (transaction_out_nonnull transaction_size_nonnull : Bool) :
    CResult × Option Bytes × Option Nat :=
  match conversion with
  | none => (.error ⟨.invalidInput "conversion", some .nulPtr⟩, none, none)
  | some c =>
    if ¬transaction_out_nonnull then
      (.error ⟨.invalidInput "transaction_out", some .nulPtr⟩, none, none)
    else if ¬transaction_size_nonnull then
      (.error ⟨.invalidInput "transaction_size", some .nulPtr⟩, none, none)
    else
      match c.transactions[index]? with
      | some t => (.success, some t, some t.length)
      | none => (.error ⟨.walletConversion, some .outOfBound⟩, none, none)

/-- `wallet_convert_ignored` (`c.rs` 307–332): on a non-null conversion,
compute the sum of the values of the ignored inputs (a 64-bit amount) and
their count, write each to its out pointer when non-null, and succeed; a
null conversion is an invalid-input error. -/
def wallet_convert_ignored (conversion : Option Conversion)
    (value_out_nonnull ignored_out_nonnull : Bool) :
    CResult × Option Nat × Option Nat :=
  match conversion with
  | some c =>
    let v := (c.ignored.map (fun i => i.value)).sum % 2 ^ 64
    let l := c.ignored.length
    (.success,
     if value_out_nonnull then some v else none,
     if ignored_out_nonnull then some l else none)
  | none => (.error ⟨.invalidInput "conversion", some .nulPtr⟩, none, none)

/-- `wallet_total_value` (`c.rs` 353–367): a null wallet is an error; a null
`total_out` means nothing is written but the call still succeeds. -/
def wallet_total_value (wallet : Option Wallet) (total_out_nonnull : Bool) :
    CResult × Option Nat :=
  match wallet with
  | none => (.error ⟨.invalidInput "wallet", some .nulPtr⟩, none)
  | some w =>
    (.success, if total_out_nonnull then some w.total_value else none)

/-- `wallet_set_state` (`c.rs` 383–394): a null wallet is an error;
otherwise `wallet.set_state(value, counter)` overwrites the account state
and the call succeeds.  Returns the updated wallet. -/
def wallet_set_state (wallet : Option Wallet) (value : Nat) (counter : Nat) :
    CResult × Option Wallet :=
  match wallet with
  | none => (.error ⟨.invalidInput "wallet", some .nulPtr⟩, none)
  | some w => (.success, some (w.set_state value counter))

/-- `wallet_vote_plan` (`c.rs` 410–437): null checks on `id` and
`vote_plan_out`, decode the payload-type byte, read
`VOTE_PLAN_ID_LENGTH` bytes from `id` and validate them, then allocate the
vote plan. -/
def wallet_vote_plan (id : Option Bytes) (payload_type : Nat)
    (vote_plan_out_nonnull : Bool) : CResult × Option VotePlan :=
  match id with
  | none => (.error ⟨.invalidInput "id", some .nulPtr⟩, none)
  | some idBuf =>
    if ¬vote_plan_out_nonnull then
      (.error ⟨.invalidInput "vote_plan_out", some .nulPtr⟩, none)
    else
      match payloadTypeOfByte payload_type with
      | .error err => (.error ⟨.invalidInput "payload_type", some err⟩, none)
      | .ok pt =>
        match VotePlanId.tryFrom (idBuf.take VOTE_PLAN_ID_LENGTH) with
        | .error err => (.error ⟨.invalidInput "id", some err⟩, none)
        | .ok vid => (.success, some (VotePlan.new vid pt))

/-- `wallet_vote_proposal` (`c.rs` 453–470): null check on `proposal_out`,
then `VoteOptions::new_length(num_choices)` either fails (wrapped as an
invalid-input error on `num_choices`) or yields the options, and the
proposal is allocated. -/
def wallet_vote_proposal (index : Nat) (num_choices : Nat)
    (proposal_out_nonnull : Bool) : CResult × Option Proposal :=
  if ¬proposal_out_nonnull then
    (.error ⟨.invalidInput "proposal_out", some .nulPtr⟩, none)
  else
    match VoteOptions.new_length num_choices with
    | .error err => (.error ⟨.invalidInput "num_choices", some err⟩, none)
    | .ok options => (.success, some (Proposal.new index options))

/-- `wallet_vote_cast` (`c.rs` 484–535): null checks on `wallet`,
`settings`, `vote_plan`, `proposal`, `transaction_out` and `len_out` in
source order, then `wallet.vote(settings, vote_plan, proposal, choice)`
either fails (its error is returned) or yields the transaction bytes, whose
pointer and length are written out.  The last component is the wallet after
the call (the source takes `wallet` as `&mut`). -/
def wallet_vote_cast (wallet : Option Wallet) (settings : Option Settings)
    (vote_plan : Option VotePlan) (proposal : Option Proposal) (choice : Nat)
    (transaction_out_nonnull len_out_nonnull : Bool) :
    CResult × Option Bytes × Option Nat × Option Wallet :=
  match wallet with
  | none => (.error ⟨.invalidInput "wallet", some .nulPtr⟩, none, none, none)
  | some w =>
    match settings with
    | none => (.error ⟨.invalidInput "settings", some .nulPtr⟩, none, none, some w)
    | some s =>
      match vote_plan with
      | none => (.error ⟨.invalidInput "vote_plan", some .nulPtr⟩, none, none, some w)
      | some vp =>
        match proposal with
        | none => (.error ⟨.invalidInput "proposal", some .nulPtr⟩, none, none, some w)
        | some p =>
          if ¬transaction_out_nonnull then
            (.error ⟨.invalidInput "transaction_out", some .nulPtr⟩, none, none, some w)
          else if ¬len_out_nonnull then
            (.error ⟨.invalidInput "len_out", some .nulPtr⟩, none, none, some w)
          else
            match w.vote s vp p choice with
            | (.error e, w2) => (.error e, none, none, some w2)
            | (.ok tx, w2) => (.success, some tx, some tx.length, some w2)

/-! ## Concrete test vectors -/

/-- A 15-word mnemonic-shaped input (a valid length) used as a concrete
test vector. -/
def mnemonic15 : String :=
  "abandon ability able about above absent absorb abstract absurd abuse access accident account accuse achieve"

/-- A concrete wallet with no discovered funds. -/
def wEx : Wallet :=
  { keys := ⟨[1, 2, 3]⟩, state := ⟨1000, 5⟩, funds := [] }

/-- Concrete settings. -/
def sEx : Settings :=
  { discrimination := 0, feeConstant := 10, feeCoefficient := 5
    block0Hash := List.replicate 32 7 }

/-- A concrete vote plan with a 32-byte id. -/
def vpEx : VotePlan :=
  ⟨⟨List.replicate 32 9⟩, .pub⟩

/-- A concrete proposal with 3 choices. -/
def pEx : Proposal :=
  ⟨0, ⟨3⟩⟩

/-- A concrete conversion with one transaction and two ignored inputs. -/
def convEx : Conversion :=
  ⟨[[1, 2]], [⟨3⟩, ⟨4⟩]⟩

/-! ## Claim theorems -/

/-- Claim C1: the claim says `wallet_recover` with a valid mnemonic and a
non-empty passphrase completes recovery with the passphrase mixed into the
derivation.  The code instead reaches `todo!()` and panics: for every
mnemonic and every non-null password with positive length the call ends in
a panic and never returns a recovered wallet, so the claim is right and the
code is a stub (code bug). -/
theorem wallet_recover_nonempty_passphrase_panics (mnemonics : String)
    (pw : List Nat) (n : Nat) (hn : 0 < n) :
    wallet_recover mnemonics (some pw) n true = .panics "not yet implemented" := by
  simp [wallet_recover, hn]

/-- Witness for C1 at a concrete failing input: a valid 15-word mnemonic
with a one-byte passphrase. -/
theorem wallet_recover_nonempty_passphrase_panics_witness :
    wallet_recover mnemonic15 (some [97]) 1 true = .panics "not yet implemented" :=
  wallet_recover_nonempty_passphrase_panics mnemonic15 [97] 1 (by decide)

/-- Claim C2: the claim says no public operation ever terminates by panic
instead of returning a structured `Result`.  Evaluating the embedded
`wallet_recover` at a concrete input with a two-byte password shows the run
terminates in the `todo!()` panic, not in a `CResult` — the claim is right
and the code is a stub (code bug). -/
theorem wallet_recover_terminates_by_panic :
    wallet_recover mnemonic15 (some [112, 119]) 2 true = .panics "not yet implemented" := by
  simp [wallet_recover]

/-- Claim C3: `wallet_vote_cast` leaves the wallet (in particular its
account state: value and counter) unchanged in every run — on every null
check failure, on a choice-out-of-range failure, and on success; the vote
construction performs no implicit counter advancement. -/
theorem wallet_vote_cast_leaves_state_unchanged (w : Wallet) (s : Option Settings)
    (vp : Option VotePlan) (p : Option Proposal) (c : Nat) (t l : Bool) :
    (wallet_vote_cast (some w) s vp p c t l).2.2.2 = some w := by
  cases s with
  | none => rfl
  | some s =>
  cases vp with
  | none => rfl
  | some vp =>
  cases p with
  | none => rfl
  | some p =>
  cases t <;> cases l <;>
    by_cases hc : p.validChoice c = true <;>
      simp [wallet_vote_cast, Wallet.vote, hc]

/-- Claim C4: `wallet_vote_cast` with a choice outside `[0, num_choices)`
fails with the choice-out-of-range error and writes nothing; with a choice
inside the range it succeeds, writes the signed transaction bytes and their
length, and those bytes deterministically encode the vote plan id, the
proposal index and the choice (they can be read back by `decodeVoteCast`). -/
theorem wallet_vote_cast_choice_spec (w : Wallet) (s : Settings) (vp : VotePlan)
    (p : Proposal) (c : Nat) (hid : vp.id.bytes.length = 32) :
    (p.options.numChoices ≤ c →
      wallet_vote_cast (some w) (some s) (some vp) (some p) c true true =
        (.error ⟨.invalidInput "choice", some .choiceOutOfRange⟩, none, none, some w)) ∧
    (c < p.options.numChoices →
      wallet_vote_cast (some w) (some s) (some vp) (some p) c true true =
        (.success, some (voteCastBytes s vp p c w),
         some (voteCastBytes s vp p c w).length, some w) ∧
      decodeVoteCast (voteCastBytes s vp p c w) = some (vp.id.bytes, p.index, c)) := by
  constructor
  · intro h
    simp [wallet_vote_cast, Wallet.vote, Proposal.validChoice, Nat.not_lt.mpr h]
  · intro h
    have hdrop : (voteCastBytes s vp p c w).drop 32 =
        p.index :: c :: (s.discrimination :: encodeCounter w.state.counter ++ w.id) := by
      unfold voteCastBytes
      rw [← hid, List.drop_left]
    have htake : (voteCastBytes s vp p c w).take 32 = vp.id.bytes := by
      unfold voteCastBytes
      rw [← hid, List.take_left]
    constructor
    · simp [wallet_vote_cast, Wallet.vote, Proposal.validChoice, h]
    · unfold decodeVoteCast
      rw [hdrop]
      simp [htake]

/-- Witness for C4: with the concrete wallet, settings, vote plan and
3-choice proposal, choice 5 is rejected as out of range while choice 1
succeeds and its bytes decode back to the id, index and choice. -/
theorem wallet_vote_cast_choice_spec_witness :
    (wallet_vote_cast (some wEx) (some sEx) (some vpEx) (some pEx) 5 true true =
      (.error ⟨.invalidInput "choice", some .choiceOutOfRange⟩, none, none, some wEx)) ∧
    ((wallet_vote_cast (some wEx) (some sEx) (some vpEx) (some pEx) 1 true true =
      (.success, some (voteCastBytes sEx vpEx pEx 1 wEx),
       some (voteCastBytes sEx vpEx pEx 1 wEx).length, some wEx)) ∧
     decodeVoteCast (voteCastBytes sEx vpEx pEx 1 wEx) = some (vpEx.id.bytes, pEx.index, 1)) :=
  ⟨(wallet_vote_cast_choice_spec wEx sEx vpEx pEx 5 (by decide)).1 (by decide),
   (wallet_vote_cast_choice_spec wEx sEx vpEx pEx 1 (by decide)).2 (by decide)⟩

/-- Claim C5: `wallet_convert_transactions_get` on a non-null conversion
and non-null out pointers succeeds and writes the index-th transaction's
bytes and length whenever `index` is strictly below
`wallet_convert_transactions_size`, and fails with the
`wallet_conversion` error carrying the `OutOfBound` cause when `index` is
greater than or equal to that size. -/
theorem wallet_convert_transactions_get_spec (conv : Conversion) (i : Nat) :
    (i < wallet_convert_transactions_size (some conv) →
      ∃ t, conv.transactions[i]? = some t ∧
        wallet_convert_transactions_get (some conv) i true true =
          (.success, some t, some t.length)) ∧
    (wallet_convert_transactions_size (some conv) ≤ i →
      wallet_convert_transactions_get (some conv) i true true =
        (.error ⟨.walletConversion, some .outOfBound⟩, none, none)) := by
  constructor
  · intro h
    have hlen : i < conv.transactions.length := by
      simpa [wallet_convert_transactions_size] using h
    obtain ⟨t, hget⟩ : ∃ t, conv.transactions[i]? = some t :=
      ⟨_, List.getElem?_eq_getElem hlen⟩
    exact ⟨t, hget, by simp [wallet_convert_transactions_get, hget]⟩
  · intro h
    have hlen : conv.transactions.length ≤ i := by
      simpa [wallet_convert_transactions_size] using h
    have hget : conv.transactions[i]? = none := by
      simp [List.getElem?_eq_none, hlen]
    simp [wallet_convert_transactions_get, hget]

/-- Witness for C5: on a conversion with one transaction, index 0 is
returned with its length and index 1 fails with the out-of-bound error. -/
theorem wallet_convert_transactions_get_spec_witness :
    (∃ t, convEx.transactions[0]? = some t ∧
      wallet_convert_transactions_get (some convEx) 0 true true =
        (.success, some t, some t.length)) ∧
    (wallet_convert_transactions_get (some convEx) 1 true true =
      (.error ⟨.walletConversion, some .outOfBound⟩, none, none)) :=
  ⟨(wallet_convert_transactions_get_spec convEx 0).1 (by decide),
   (wallet_convert_transactions_get_spec convEx 1).2 (by decide)⟩

/-- Claim C6: `wallet_convert_ignored` on a non-null conversion with
non-null out pointers succeeds, writes the sum of the values of all ignored
(dust) entries as a 64-bit amount to `value_out`, and writes the number of
ignored entries to `ignored_out`. -/
theorem wallet_convert_ignored_spec (conv : Conversion) :
    wallet_convert_ignored (some conv) true true =
      (.success, some ((conv.ignored.map (fun i => i.value)).sum % 2 ^ 64),
       some conv.ignored.length) := by
  simp [wallet_convert_ignored]

/-- Claim C7: `wallet_convert` with non-null wallet, settings and output
pointers always succeeds (there is no error path after the null checks),
and on a wallet with zero discovered funds the produced conversion has zero
transactions and an empty ignored set. -/
theorem wallet_convert_no_error (w : Wallet) (s : Settings) :
    wallet_convert (some w) (some s) true = (.success, some (w.convert s)) ∧
    (w.funds = [] →
      (w.convert s).transactions = [] ∧ (w.convert s).ignored = []) := by
  constructor
  · simp [wallet_convert]
  · intro h
    simp [Wallet.convert, h, chunks, chunksAux]

/-- Witness for C7: the concrete wallet has no discovered funds, so the
conversion succeeds with zero transactions and empty ignored set. -/
theorem wallet_convert_no_error_witness :
    (wallet_convert (some wEx) (some sEx) true = (.success, some (wEx.convert sEx))) ∧
    ((wEx.convert sEx).transactions = [] ∧ (wEx.convert sEx).ignored = []) :=
  ⟨(wallet_convert_no_error wEx sEx).1, (wallet_convert_no_error wEx sEx).2 rfl⟩

/-- Claim C8: `wallet_vote_proposal` fails with an invalid-input error on
`num_choices` when `num_choices` is zero or exceeds the protocol maximum,
and otherwise succeeds with a proposal whose valid choice values are exactly
the range `[0, num_choices)`. -/
theorem wallet_vote_proposal_spec (index num_choices : Nat) :
    (num_choices = 0 ∨ maxOptions < num_choices →
      wallet_vote_proposal index num_choices true =
        (.error ⟨.invalidInput "num_choices", some .invalidChoiceCount⟩, none)) ∧
    (0 < num_choices → num_choices ≤ maxOptions →
      wallet_vote_proposal index num_choices true =
        (.success, some (Proposal.new index ⟨num_choices⟩)) ∧
      ∀ c, (Proposal.new index ⟨num_choices⟩).validChoice c = true ↔ c < num_choices) := by
  constructor
  · intro h
    simp [wallet_vote_proposal, VoteOptions.new_length, h]
  · intro h1 h2
    constructor
    · simp [wallet_vote_proposal, VoteOptions.new_length, Nat.pos_iff_ne_zero.mp h1,
        Nat.not_lt.mpr h2]
    · intro c
      simp [Proposal.new, Proposal.validChoice]

/-- Witness for C8: `num_choices = 0` is rejected, `num_choices = 3` is
accepted, and choice 2 is valid for the resulting 3-choice proposal. -/
theorem wallet_vote_proposal_spec_witness :
    (wallet_vote_proposal 0 0 true =
      (.error ⟨.invalidInput "num_choices", some .invalidChoiceCount⟩, none)) ∧
    (wallet_vote_proposal 1 3 true = (.success, some (Proposal.new 1 ⟨3⟩))) ∧
    ((Proposal.new 1 ⟨3⟩).validChoice 2 = true ↔ 2 < 3) :=
  ⟨(wallet_vote_proposal_spec 0 0).1 (Or.inl rfl),
   ((wallet_vote_proposal_spec 1 3).2 (by decide) (by decide)).1,
   ((wallet_vote_proposal_spec 1 3).2 (by decide) (by decide)).2 2⟩

/-- Claim C9: `wallet_set_state` on a non-null wallet unconditionally
overwrites the account state with the given value and counter (no
monotonicity validation), and `wallet_total_value` then returns exactly the
last value set: setting `(1000, 5)` makes the total 1000, and a later
`(0, 6)` makes it 0 — no history is retained. -/
theorem wallet_set_state_overwrites (w : Wallet) (v c : Nat) :
    wallet_set_state (some w) v c = (.success, some { w with state := ⟨v, c⟩ }) ∧
    wallet_total_value (some { w with state := ⟨v, c⟩ }) true = (.success, some v) ∧
    ((wallet_set_state (some w) 1000 5).2.bind fun w1 =>
        (wallet_total_value (some w1) true).2) = some 1000 ∧
    ((wallet_set_state (some w) 1000 5).2.bind fun w1 =>
        (wallet_set_state (some w1) 0 6).2.bind fun w2 =>
          (wallet_total_value (some w2) true).2) = some 0 := by
  refine ⟨rfl, ?_, rfl, rfl⟩
  simp [wallet_total_value, Wallet.total_value]

/-- Claim C10: `wallet_convert_transactions_size` on a null conversion
returns 0 — the same answer as for a valid conversion with zero
transactions, so the two are indistinguishable through this operation. -/
theorem wallet_convert_transactions_size_null_is_zero :
    wallet_convert_transactions_size none = 0 ∧
    wallet_convert_transactions_size (some ⟨[], []⟩) = 0 :=
  ⟨rfl, rfl⟩

end WalletCore
